import Mathlib

/-!
Verification of the HireGuard face deduplication / identity-verification engine.

Shallow embedding of:
  - com/mhire/app/services/verification_system/face_verification/face_verification.py
    (class FaceVerification)
  - com/mhire/app/services/verification_system/api_manager/faceplusplus_manager.py
    (class FacePlusPlusManager)

Conventions:
  - raised exceptions (fastapi.HTTPException and collaborator exceptions) are
    modelled with `Except Err`;
  - the persistence collaborator (DBManager) and the remote provider are
    external; their behaviour during one call is an explicit environment;
  - machine floats are modelled by exact rationals (noted where it matters);
  - untyped provider JSON is modelled by a record of the fields the code reads,
    plus a flag recording whether further keys are present (only dict
    truthiness is observable for those).
-/

namespace HireGuard

/-- An exception carrying an HTTP-style status code and a detail string
(fastapi.HTTPException with an ErrorResponse payload; collaborator exceptions
are modelled the same way). -/
structure Err where
  status : Nat
  detail : String
deriving Repr, DecidableEq

/-- Outcome of a fallible operation: a normal return or a raised exception. -/
abbrev Exc (α : Type) := Except Err α

/-- Python str(e) on an HTTPException: "{status_code}: {detail}". -/
def excStr (e : Err) : String := toString e.status ++ ": " ++ e.detail

/-- Face++ detect attributes as consumed by the code: the three optional human
attributes, the optional facequality value (the nested
`get('facequality', \x7b\x7d).get('value', 0)` access collapsed to one option),
and a flag for any further keys (only dict truthiness observes them). -/
structure Attributes where
  gender : Option String := none
  age : Option Nat := none
  ethnicity : Option String := none
  facequality : Option ℚ := none
  extra : Bool := false
deriving Repr, DecidableEq

/-- Python truthiness of the attributes dict (`if not attributes`). -/
def Attributes.truthy (a : Attributes) : Bool :=
  a.gender.isSome || a.age.isSome || a.ethnicity.isSome || a.facequality.isSome || a.extra

/-- The face-quality value as read by the code, with the 0 default. -/
def Attributes.fqValue (a : Attributes) : ℚ := a.facequality.getD 0

/-- One face entry of the provider detect JSON: `face_token` (always present in
the provider shape) and `attributes` with the `\x7b\x7d` default. -/
structure Face where
  face_token : String
  attributes : Attributes := {}
deriving Repr, DecidableEq

/-- One raw entry of the provider search results, as read by the code
(`result.get('confidence', 0)`, `result.get('face_token', '')`). -/
structure RawMatch where
  confidence : Option ℚ := none
  face_token : Option String := none
deriving Repr, DecidableEq

/-- The provider JSON body, restricted to the fields the code reads; `extra`
records whether the dict holds further keys (observed only via truthiness). -/
structure Json where
  faces : Option (List Face) := none
  error_message : Option String := none
  face_count : Option Nat := none
  results : Option (List RawMatch) := none
  faceset_token : Option String := none
  face_added : Option Nat := none
  extra : Bool := false
deriving Repr, DecidableEq

/-- Python truthiness of the JSON dict (`if result`, `if not details`). -/
def Json.truthy (j : Json) : Bool :=
  j.faces.isSome || j.error_message.isSome || j.face_count.isSome ||
    j.results.isSome || j.faceset_token.isSome || j.face_added.isSome || j.extra

/-- Modelled from the spec: the FaceVerificationMatch response model of the
schema module (absent from src); §3 Match — a confidence plus the matched
descriptor. It is a plain data carrier. -/
structure FaceVerificationMatch where
  confidence : ℚ
  face_token : String
deriving Repr, DecidableEq

/-- Modelled from the spec: the VerificationResponse model of the schema module
(absent from src); fields are exactly those set at the construction sites in
verify_face. It is a plain data carrier. -/
structure VerificationResponse where
  status : String
  message : String
  is_duplicate : Bool
  face_token : Option String
  confidence : Option ℚ
  «matches» : Option (List FaceVerificationMatch)
deriving Repr, DecidableEq

/-- The configured confidence threshold (FaceVerification.__init__). -/
def confidence_threshold : ℚ := 90

/-- The configured minimum face quality (FaceVerification.__init__). -/
def min_face_quality : ℚ := 40

/-- FaceVerification._validate_face_attributes: empty attribute dict or absence
of all of gender/age/ethnicity rejects; the quality branches only log. -/
def validate_face_attributes (attributes : Attributes) : Bool × String :=
  if !attributes.truthy then
    (false, "No face attributes detected")
  else
    if !(attributes.gender.isSome || attributes.age.isSome || attributes.ethnicity.isSome) then
      (false, "Unable to detect human face characteristics")
    else
      (true, "Valid human face detected")

/-- The per-result filtering inside the search loop: keep results whose
0-defaulted confidence reaches the threshold, in provider order. -/
def processResults (results : List RawMatch) : List FaceVerificationMatch :=
  results.filterMap fun r =>
    if confidence_threshold ≤ r.confidence.getD 0 then
      some ⟨r.confidence.getD 0, r.face_token.getD ""⟩
    else none

/-- The gallery loop of search_similar_faces: skip empty facesets, skip
facesets whose search raised, append the filtered matches in order. -/
def gatherMatches (search : String → String → Exc (List RawMatch)) (face_token : String) :
    List (String × List String) → List FaceVerificationMatch
  | [] => []
  | fs :: rest =>
    (if fs.2.isEmpty then []
     else
       match search face_token fs.1 with
       | .error _ => []
       | .ok results => processResults results) ++ gatherMatches search face_token rest

/-- Python sorted(matches, key confidence, reverse=True): a stable descending
sort, which mergeSort with this comparison reproduces exactly. -/
def sortMatches (ms : List FaceVerificationMatch) : List FaceVerificationMatch :=
  ms.mergeSort fun a b => decide (b.confidence ≤ a.confidence)

/-- FaceVerification.search_similar_faces, with the stored-faces lookup and the
per-faceset provider searches as explicit collaborator outcomes. A collaborator
exception outside the per-faceset try is wrapped as HTTP 500. -/
def search_similar_faces (db : Exc (List (String × List String)))
    (search : String → String → Exc (List RawMatch)) (face_token : String) :
    Exc (List FaceVerificationMatch) :=
  match db with
  | .error e => .error ⟨500, "Error during face search: " ++ excStr e⟩
  | .ok facesets => .ok (sortMatches (gatherMatches search face_token facesets))

/-- The collaborator behaviours (provider manager methods and DBManager
methods) observable by FaceVerification during one verification call. -/
structure Env where
  detect : Exc (Option (String × Attributes))
  db_get_all : Exc (List (String × List String))
  fpp_search : String → String → Exc (List RawMatch)
  db_find_available : Exc (Option (String × Nat))
  fpp_get_detail : String → Exc Json
  fpp_create : Exc String
  fpp_add : String → String → Exc Bool
  db_save_token : String → String → Exc Bool
  db_update_count : String → Nat → Exc Bool

/-- save_face_data lines 81-89: take the db candidate faceset and re-validate
it against get_faceset_detail; a falsy detail or one carrying error_message
resets the candidate to none. An exception propagates. -/
def candidate_faceset (env : Env) : Exc (Option String) :=
  match env.db_find_available with
  | .error e => .error e
  | .ok none => .ok none
  | .ok (some info) =>
    match env.fpp_get_detail info.1 with
    | .error e => .error e
    | .ok details =>
      if !details.truthy || details.error_message.isSome then .ok none
      else .ok (some info.1)

/-- save_face_data lines 91-95: fall back to create_new_faceset when no
candidate survived; a falsy created id raises HTTP 500. -/
def chosen_faceset (env : Env) : Exc String :=
  match candidate_faceset env with
  | .error e => .error e
  | .ok (some faceset_id) => .ok faceset_id
  | .ok none =>
    match env.fpp_create with
    | .error e => .error e
    | .ok faceset_id =>
      if faceset_id = "" then
        .error ⟨500, "Failed to create new FaceSet in Face++ API"⟩
      else .ok faceset_id

/-- save_face_data lines 107-109: refresh the faceset count; the update result
is ignored but its exception propagates. -/
def refresh_count (env : Env) (faceset_id : String) : Exc Bool :=
  match env.fpp_get_detail faceset_id with
  | .error e => .error e
  | .ok details =>
    if details.truthy && details.face_count.isSome then
      match env.db_update_count faceset_id (details.face_count.getD 0) with
      | .error e => .error e
      | .ok _ => .ok true
    else .ok true

/-- The body of FaceVerification.save_face_data before the outer except. -/
def save_face_data_body (env : Env) (face_token : String) : Exc Bool :=
  match chosen_faceset env with
  | .error e => .error e
  | .ok faceset_id =>
    match env.fpp_add face_token faceset_id with
    | .error e => .error e
    | .ok added =>
      if !added then
        .error ⟨500, "Failed to add face to FaceSet " ++ faceset_id ++ " in Face++ API"⟩
      else
        match env.db_save_token face_token faceset_id with
        | .error e => .error e
        | .ok saved =>
          if !saved then .error ⟨500, "Failed to save face token to database"⟩
          else refresh_count env faceset_id

/-- FaceVerification.save_face_data: the body with its outer except-wrap. -/
def save_face_data (env : Env) (face_token : String) : Exc Bool :=
  match save_face_data_body env face_token with
  | .ok b => .ok b
  | .error e => .error ⟨500, "Error saving face data: " ++ excStr e⟩

/-- The terminal branch verify_face ends in (for unreachability statements). -/
inductive Branch where
  | caught
  | noFace
  | invalid
  | duplicate
  | saveFailed
  | success
deriving Repr, DecidableEq

/-- The collaborator operations verify_face performs, in order. -/
inductive Op where
  | detect
  | search
  | save
deriving Repr, DecidableEq

/-- The error-status response body verify_face builds (all three error sites
set the same remaining fields). -/
def error_response (message : String) : VerificationResponse :=
  ⟨"error", message, false, none, none, none⟩

/-- FaceVerification.verify_face, instrumented with the terminal branch taken
and the collaborator operations performed. The outer except turns any raised
exception into an error response. -/
def verify_faceT (env : Env) : VerificationResponse × Branch × List Op :=
  match env.detect with
  | .error e => (error_response (excStr e), Branch.caught, [Op.detect])
  | .ok none => (error_response "No face detected in image", Branch.noFace, [Op.detect])
  | .ok (some ft_attrs) =>
    match validate_face_attributes ft_attrs.2 with
    | (false, message) => (error_response message, Branch.invalid, [Op.detect])
    | (true, _) =>
      match search_similar_faces env.db_get_all env.fpp_search ft_attrs.1 with
      | .error e => (error_response (excStr e), Branch.caught, [Op.detect, Op.search])
      | .ok (best :: rest) =>
        (⟨"duplicate_found", "Potential duplicate face detected", true, some ft_attrs.1,
          some best.confidence, some (best :: rest)⟩, Branch.duplicate, [Op.detect, Op.search])
      | .ok [] =>
        match save_face_data env ft_attrs.1 with
        | .error e => (error_response (excStr e), Branch.caught, [Op.detect, Op.search, Op.save])
        | .ok false =>
          (error_response "Failed to save face data", Branch.saveFailed,
            [Op.detect, Op.search, Op.save])
        | .ok true =>
          (⟨"success", "New face registered successfully", false, some ft_attrs.1, none, none⟩,
            Branch.success, [Op.detect, Op.search, Op.save])

/-- FaceVerification.verify_face: the response alone. -/
def verify_face (env : Env) : VerificationResponse := (verify_faceT env).1

/-! ## FacePlusPlusManager: the provider HTTP client -/

/-- Whether the character list starts with the given pattern. -/
def listStartsWith : List Char → List Char → Bool
  | _, [] => true
  | [], _ :: _ => false
  | a :: as, b :: bs => a == b && listStartsWith as bs

/-- Whether the pattern occurs inside the character list. -/
def listContainsSub : List Char → List Char → Bool
  | l, need =>
    if listStartsWith l need then true
    else
      match l with
      | [] => false
      | _ :: as => listContainsSub as need

/-- Python `needle in hay` on strings. -/
def strContains (hay needle : String) : Bool := listContainsSub hay.toList needle.toList

/-- The retryable provider error marker checked in _make_request. -/
def CONCURRENCY_MARKER : String := "CONCURRENCY_LIMIT_EXCEEDED"

/-- The rate-limit check of _make_request:
`'error_message' in result and 'CONCURRENCY_LIMIT_EXCEEDED' in result['error_message']`. -/
def isConcurrencyError (body : Json) : Bool :=
  match body.error_message with
  | some em => strContains em CONCURRENCY_MARKER
  | none => false

/-- Rendering of the JSON body used in non-200 error details
(json.dumps(result)); serialization is a library call, modelled as a canonical
rendering that carries the provider message. -/
def Json.dumps (j : Json) : String :=
  "\x7b" ++
    (match j.error_message with
     | some em => "\"error_message\": \"" ++ em ++ "\""
     | none => "") ++ "\x7d"

/-- What one HTTP attempt can yield: a transport failure
(requests.RequestException), a body that fails JSON parsing, or a parsed JSON
body with its HTTP status code. -/
inductive RawResponse where
  | transport (msg : String)
  | badJson (status : Nat)
  | response (status : Nat) (body : Json)
deriving Repr, DecidableEq

/-- max_retries (FacePlusPlusManager.__init__). -/
def max_retries : Nat := 3

/-- retry_delay in seconds (FacePlusPlusManager.__init__). -/
def retry_delay : ℚ := 2

deriving instance DecidableEq for Except

/-- Observable trace of one _make_request call: the returned value or raised
exception (none would mean the for loop fell off the end, Python's implicit
None), the retry sleeps performed in order, and the number of HTTP attempts. -/
structure RequestTrace where
  result : Option (Exc Json)
  waits : List ℚ
  attempts : Nat
deriving Repr, DecidableEq

/-- The retry loop of _make_request. `attempt` is the 0-based loop index and
`remaining` the iterations left (attempt + remaining = max_retries). -/
def make_request_go (resp : Nat → RawResponse) (operation : String) :
    Nat → Nat → List ℚ → Nat → RequestTrace
  | _, 0, waits, attempts => ⟨none, waits, attempts⟩
  | attempt, remaining + 1, waits, attempts =>
    match resp attempt with
    | .transport msg =>
      if attempt < max_retries - 1 then
        make_request_go resp operation (attempt + 1) remaining
          (waits ++ [retry_delay]) (attempts + 1)
      else
        ⟨some (.error ⟨503, "API request failed in " ++ operation ++ ": " ++ msg⟩),
          waits, attempts + 1⟩
    | .badJson _ =>
      if attempt < max_retries - 1 then
        make_request_go resp operation (attempt + 1) remaining
          (waits ++ [retry_delay]) (attempts + 1)
      else
        ⟨some (.error ⟨500, "Invalid response from Face++ API in " ++ operation⟩),
          waits, attempts + 1⟩
    | .response status body =>
      if isConcurrencyError body && decide (attempt < max_retries - 1) then
        make_request_go resp operation (attempt + 1) remaining
          (waits ++ [retry_delay * ((attempt : ℚ) + 1)]) (attempts + 1)
      else if status ≠ 200 then
        ⟨some (.error ⟨status, operation ++ " failed: " ++ body.dumps⟩), waits, attempts + 1⟩
      else
        match body.error_message with
        | some em =>
          ⟨some (.error ⟨400, operation ++ " failed: " ++ em⟩), waits, attempts + 1⟩
        | none => ⟨some (.ok body), waits, attempts + 1⟩

/-- FacePlusPlusManager._make_request over the per-attempt provider behaviour. -/
def make_request (resp : Nat → RawResponse) (operation : String) : RequestTrace :=
  make_request_go resp operation 0 max_retries [] 0

/-- FacePlusPlusManager.detect_face given the outcome of its provider request:
any exception is caught and yields none (the (None, None) return), as does a
missing or empty faces list; otherwise the first face's token and attributes. -/
def detect_face (req : Exc Json) : Option (String × Attributes) :=
  match req with
  | .error _ => none
  | .ok result =>
    match result.faces with
    | none => none
    | some [] => none
    | some (face :: _) => some (face.face_token, face.attributes)

/-- FacePlusPlusManager.search_faces post-processing of its request outcome. -/
def search_faces (req : Exc Json) : Exc (List RawMatch) :=
  match req with
  | .error e => .error e
  | .ok result =>
    if result.truthy && result.results.isSome then .ok (result.results.getD [])
    else .error ⟨500, "Face search failed: Invalid response format"⟩

/-- FacePlusPlusManager.get_faceset_detail post-processing: returns the body
only when it is truthy and carries face_count, else raises. -/
def get_faceset_detail (req : Exc Json) : Exc Json :=
  match req with
  | .error e => .error e
  | .ok result =>
    if result.truthy && result.face_count.isSome then .ok result
    else .error ⟨500, "Failed to get FaceSet details: Invalid response format"⟩

/-- FacePlusPlusManager.create_new_faceset post-processing; new_outer_id is the
uuid-composed identifier (nondeterministic, hence a parameter). The check is
`result and result.get('faceset_token')`: a present, non-empty token. -/
def create_new_faceset (req : Exc Json) (new_outer_id : String) : Exc String :=
  match req with
  | .error e => .error e
  | .ok result =>
    if result.truthy && result.faceset_token.getD "" ≠ "" then .ok new_outer_id
    else .error ⟨500, "Failed to create FaceSet: Invalid response format"⟩

/-- FacePlusPlusManager.add_face_to_faceset post-processing: success iff the
body is truthy and has a face_added key, else raises. -/
def add_face_to_faceset (req : Exc Json) : Exc Bool :=
  match req with
  | .error e => .error e
  | .ok result =>
    if result.truthy && result.face_added.isSome then .ok true
    else .error ⟨500, "Failed to add face: Invalid response format"⟩

/-! ## resize_image_if_needed: the image normalization pipeline

Dimensions are tracked exactly; Python doubles are modelled by exact
rationals. The abstract encoder maps (width, height, JPEG quality) to an
encoded byte size. -/

/-- Default max_dimension argument of resize_image_if_needed. -/
def max_dimension : Nat := 2048

/-- min_dimension inside resize_image_if_needed. -/
def min_dimension : Nat := 48

/-- The byte budget: max_size_mb = 2, compared as size/1024/1024 <= 2. -/
def byte_budget : Nat := 2 * 1024 * 1024

/-- An abstract JPEG encoder: width, height, quality to encoded size. -/
abbrev Enc := Nat → Nat → Nat → Nat

/-- Pillow round_aspect: of floor and ceil, the one with the smaller key
(min picks the first on ties, hence floor), then at least 1. -/
def round_aspect (number : ℚ) (key : ℤ → ℚ) : ℤ :=
  max (if key ⌊number⌋ ≤ key ⌈number⌉ then ⌊number⌋ else ⌈number⌉) 1

/-- Pillow Image.thumbnail((2048, 2048)) effect on the size: no-op when
already within bounds; otherwise scale the longer side to 2048 and round the
other coordinate, preserving aspect per preserve_aspect_ratio. -/
def thumbnailDims (w h : Nat) : Nat × Nat :=
  if w ≤ max_dimension ∧ h ≤ max_dimension then (w, h)
  else
    if (1 : ℚ) ≥ (w : ℚ) / (h : ℚ) then
      ((round_aspect ((max_dimension : ℚ) * ((w : ℚ) / (h : ℚ)))
          (fun n => |(w : ℚ) / (h : ℚ) - (n : ℚ) / (max_dimension : ℚ)|)).toNat,
        max_dimension)
    else
      (max_dimension,
        (round_aspect ((max_dimension : ℚ) / ((w : ℚ) / (h : ℚ)))
          (fun n => if n = 0 then 0
                    else |(w : ℚ) / (h : ℚ) - (max_dimension : ℚ) / (n : ℚ)|)).toNat)

/-- The shorter-side upscale of resize_image_if_needed: scale = 48 / min,
new = int(dim * scale), i.e. the floor of the exact product. -/
def upscaleDims (w h : Nat) : Nat × Nat :=
  if min w h < min_dimension then
    (w * min_dimension / min w h, h * min_dimension / min w h)
  else (w, h)

/-- The dimension normalization preceding the compression ladder. -/
def normalizeDims (w h : Nat) : Nat × Nat :=
  upscaleDims (thumbnailDims w h).1 (thumbnailDims w h).2

/-- The qualities tried by `while quality > 20` starting at 90, step -5. -/
def qualitySteps : List Nat := [90, 85, 80, 75, 70, 65, 60, 55, 50, 45, 40, 35, 30, 25]

/-- The scales tried by `while scale > 0.3` starting at 0.8, step -0.1, in
exact arithmetic. (The float loop can drift to one extra step at ~0.3; every
bound proved below also covers that scale.) -/
def shrinkScales : List ℚ := [8/10, 7/10, 6/10, 5/10, 4/10]

/-- int(dim * scale) on the exact product. -/
def scaleDim (d : Nat) (s : ℚ) : Nat := (⌊(d : ℚ) * s⌋).toNat

/-- The shrink-loop candidate dimensions: successive scales until the first
whose shorter side would drop under 48 (the loop breaks there). -/
def shrinkCandidates (w h : Nat) : List (Nat × Nat) :=
  (shrinkScales.map fun s => (scaleDim w s, scaleDim h s)).takeWhile
    fun d => decide (min_dimension ≤ min d.1 d.2)

/-- The value resize_image_if_needed returns, with the encode trace. -/
structure EncodedImage where
  w : Nat
  h : Nat
  quality : Nat
  size : Nat
  lastResort : Bool
  steps : Nat
deriving Repr, DecidableEq

/-- First candidate (w, h, quality) whose encoding fits the budget, along with
the number of encode calls spent (position of the hit). -/
def findFirstFit (enc : Enc) : List (Nat × Nat × Nat) → Option ((Nat × Nat × Nat) × Nat)
  | [] => none
  | c :: cs =>
    if enc c.1 c.2.1 c.2.2 ≤ byte_budget then some (c, 1)
    else
      match findFirstFit enc cs with
      | some (hit, n) => some (hit, n + 1)
      | none => none

/-- FacePlusPlusManager.resize_image_if_needed on a decodable image of the
given dimensions: normalize dimensions, then the quality ladder, then the
shrink ladder at quality 85, then the last-resort encode at quality 70. -/
def resize_image_if_needed (enc : Enc) (w₀ h₀ : Nat) : EncodedImage :=
  match findFirstFit enc (qualitySteps.map fun q =>
      ((normalizeDims w₀ h₀).1, (normalizeDims w₀ h₀).2, q)) with
  | some (hit, n) => ⟨hit.1, hit.2.1, hit.2.2, enc hit.1 hit.2.1 hit.2.2, false, n⟩
  | none =>
    match findFirstFit enc
        ((shrinkCandidates (normalizeDims w₀ h₀).1 (normalizeDims w₀ h₀).2).map
          fun d => (d.1, d.2, 85)) with
    | some (hit, n) =>
      ⟨hit.1, hit.2.1, hit.2.2, enc hit.1 hit.2.1 hit.2.2, false, qualitySteps.length + n⟩
    | none =>
      ⟨(normalizeDims w₀ h₀).1, (normalizeDims w₀ h₀).2, 70,
        enc (normalizeDims w₀ h₀).1 (normalizeDims w₀ h₀).2 70, true,
        qualitySteps.length
          + (shrinkCandidates (normalizeDims w₀ h₀).1 (normalizeDims w₀ h₀).2).length + 1⟩

/-! ## Helper lemmas -/

theorem refresh_count_ok {env : Env} {fid : String} {b : Bool}
    (h : refresh_count env fid = .ok b) : b = true := by
  unfold refresh_count at h
  split at h
  · exact absurd h (by simp)
  · split at h
    · split at h
      · exact absurd h (by simp)
      · cases h; rfl
    · cases h; rfl

theorem save_face_data_body_ok {env : Env} {tok : String} {b : Bool}
    (h : save_face_data_body env tok = .ok b) : b = true := by
  unfold save_face_data_body at h
  split at h
  · exact absurd h (by simp)
  · split at h
    · exact absurd h (by simp)
    · split at h
      · exact absurd h (by simp)
      · split at h
        · exact absurd h (by simp)
        · split at h
          · exact absurd h (by simp)
          · exact refresh_count_ok h

theorem save_face_data_ok {env : Env} {tok : String} {b : Bool}
    (h : save_face_data env tok = .ok b) : b = true := by
  unfold save_face_data at h
  split at h
  next heq => cases h; exact save_face_data_body_ok heq
  next => exact absurd h (by simp)

theorem processResults_mem {m : FaceVerificationMatch} {rs : List RawMatch}
    (h : m ∈ processResults rs) : confidence_threshold ≤ m.confidence := by
  unfold processResults at h
  obtain ⟨r, _, hr⟩ := List.mem_filterMap.mp h
  split at hr
  · cases hr; assumption
  · exact absurd hr (by simp)

theorem gatherMatches_mem {m : FaceVerificationMatch}
    {search : String → String → Exc (List RawMatch)} {tok : String}
    {gals : List (String × List String)} (h : m ∈ gatherMatches search tok gals) :
    confidence_threshold ≤ m.confidence := by
  induction gals with
  | nil => cases h
  | cons fs rest ih =>
    unfold gatherMatches at h
    rcases List.mem_append.mp h with h1 | h2
    · split at h1
      · cases h1
      · split at h1
        · cases h1
        · exact processResults_mem h1
    · exact ih h2

theorem sortMatches_mem {m : FaceVerificationMatch} {ms : List FaceVerificationMatch} :
    m ∈ sortMatches ms ↔ m ∈ ms := by
  unfold sortMatches
  exact List.mem_mergeSort

theorem sortMatches_sorted (ms : List FaceVerificationMatch) :
    List.Sorted (fun a b => b.confidence ≤ a.confidence) (sortMatches ms) := by
  unfold sortMatches
  have hp : (ms.mergeSort fun a b => decide (b.confidence ≤ a.confidence)).Pairwise
      (fun a b => decide (b.confidence ≤ a.confidence)) :=
    List.sorted_mergeSort
      (fun a b c hab hbc => by
        simp only [decide_eq_true_eq] at *
        exact le_trans hbc hab)
      (fun a b => by
        simp only [Bool.or_eq_true, decide_eq_true_eq]
        exact le_total b.confidence a.confidence) ms
  exact hp.imp fun h => of_decide_eq_true h

/-- Spec-side predicate: a faceset that is non-empty and whose provider search
succeeded (the facesets the claim says contribute to the result). -/
def searchSucceeded (search : String → String → Exc (List RawMatch)) (tok : String)
    (fs : String × List String) : Bool :=
  !fs.2.isEmpty &&
    (match search tok fs.1 with
     | .ok _ => true
     | .error _ => false)

/-- Spec-side extraction: the above-threshold matches a faceset contributes. -/
def matchesFromFaceset (search : String → String → Exc (List RawMatch)) (tok : String)
    (fs : String × List String) : List FaceVerificationMatch :=
  match search tok fs.1 with
  | .ok rs => processResults rs
  | .error _ => []

theorem gatherMatches_eq_bind (search : String → String → Exc (List RawMatch)) (tok : String)
    (gals : List (String × List String)) :
    gatherMatches search tok gals
      = (gals.filter (searchSucceeded search tok)).flatMap (matchesFromFaceset search tok) := by
  induction gals with
  | nil => rfl
  | cons fs rest ih =>
    unfold gatherMatches
    rw [ih]
    by_cases he : fs.2.isEmpty
    · have : searchSucceeded search tok fs = false := by
        simp [searchSucceeded, he]
      simp [he, List.filter_cons, this]
    · rcases hs : search tok fs.1 with e | rs
      · have : searchSucceeded search tok fs = false := by
          simp [searchSucceeded, he, hs]
        simp [he, hs, List.filter_cons, this]
      · have hsucc : searchSucceeded search tok fs = true := by
          simp [searchSucceeded, he, hs]
        simp [he, hs, List.filter_cons, hsucc, matchesFromFaceset]

/-! ## Claims -/

/-- C1: for every input image and every behaviour of the provider and
persistence collaborators, including any raised exception, verify_face returns
a structured VerificationResponse whose status is one of error,
duplicate_found, success; no collaborator exception propagates. -/
theorem C1_verify_face_total_status (env : Env) :
    (verify_face env).status = "error" ∨ (verify_face env).status = "duplicate_found" ∨
      (verify_face env).status = "success" := by
  unfold verify_face verify_faceT
  split
  · exact Or.inl rfl
  · exact Or.inl rfl
  · split
    · exact Or.inl rfl
    · split
      · exact Or.inl rfl
      · exact Or.inr (Or.inl rfl)
      · split
        · exact Or.inl rfl
        · exact Or.inl rfl
        · exact Or.inr (Or.inr rfl)

/-- C2: any list search_similar_faces returns holds only matches whose
confidence reaches the configured threshold (90.0), and it is sorted in
descending order of confidence. -/
theorem C2_search_filtered_and_sorted (db : Exc (List (String × List String)))
    (search : String → String → Exc (List RawMatch)) (tok : String)
    (ms : List FaceVerificationMatch) (h : search_similar_faces db search tok = .ok ms) :
    (∀ m ∈ ms, confidence_threshold ≤ m.confidence) ∧
      List.Sorted (fun a b => b.confidence ≤ a.confidence) ms := by
  unfold search_similar_faces at h
  rcases db with e | gals
  · exact absurd h (by simp)
  · cases h
    exact ⟨fun m hm => gatherMatches_mem (sortMatches_mem.mp hm), sortMatches_sorted _⟩

unseal List.merge List.mergeSort in
theorem C2_search_filtered_and_sorted_witness :
    (∀ m ∈ ([⟨95, "b"⟩, ⟨91, "a"⟩] : List FaceVerificationMatch),
        confidence_threshold ≤ m.confidence) ∧
      List.Sorted (fun a b : FaceVerificationMatch => b.confidence ≤ a.confidence)
        [⟨95, "b"⟩, ⟨91, "a"⟩] :=
  C2_search_filtered_and_sorted
    (.ok [("fs1", ["t1"]), ("fs2", ["t2"])])
    (fun _ fid => if fid = "fs1" then .ok [⟨some 91, some "a"⟩, ⟨some 80, some "x"⟩]
                  else .ok [⟨some 95, some "b"⟩])
    "probe" [⟨95, "b"⟩, ⟨91, "a"⟩] (by with_unfolding_all decide)

/-- C7: searching with failing galleries never aborts: the result is exactly
the sorted collection of above-threshold matches from the non-empty galleries
whose provider search succeeded; failing galleries are skipped. -/
theorem C7_partial_failure_tolerant (gals : List (String × List String))
    (search : String → String → Exc (List RawMatch)) (tok : String) :
    search_similar_faces (.ok gals) search tok
      = .ok (sortMatches
          ((gals.filter (searchSucceeded search tok)).flatMap (matchesFromFaceset search tok))) :=
  congrArg (fun l => Except.ok (sortMatches l)) (gatherMatches_eq_bind search tok gals)

/-- C10: save_face_data never returns False — every run returns True or raises
— and consequently the verify_face branch that handles a False return (the
"Failed to save face data" outcome) is unreachable. -/
theorem C10_save_never_false :
    (∀ env tok, save_face_data env tok = .ok true ∨ ∃ e, save_face_data env tok = .error e) ∧
    (∀ env, (verify_faceT env).2.1 = Branch.caught ∨ (verify_faceT env).2.1 = Branch.noFace ∨
      (verify_faceT env).2.1 = Branch.invalid ∨ (verify_faceT env).2.1 = Branch.duplicate ∨
      (verify_faceT env).2.1 = Branch.success) := by
  constructor
  · intro env tok
    rcases hs : save_face_data env tok with e | b
    · exact Or.inr ⟨e, rfl⟩
    · cases save_face_data_ok hs
      exact Or.inl rfl
  · intro env
    unfold verify_faceT
    split
    · exact Or.inl rfl
    · exact Or.inr (Or.inl rfl)
    · split
      · exact Or.inr (Or.inr (Or.inl rfl))
      · split
        · exact Or.inl rfl
        · exact Or.inr (Or.inr (Or.inr (Or.inl rfl)))
        · split
          · exact Or.inl rfl
          · next heq => exact absurd (save_face_data_ok heq) (by simp)
          · exact Or.inr (Or.inr (Or.inr (Or.inr rfl)))

theorem validate_no_human_attrs {attrs : Attributes} (hg : attrs.gender = none)
    (ha : attrs.age = none) (he : attrs.ethnicity = none) :
    (validate_face_attributes attrs).1 = false := by
  unfold validate_face_attributes Attributes.truthy
  rw [hg, ha, he]
  simp only [Option.isSome_none, Bool.or_false, Bool.false_or, Bool.not_false]
  split <;> rfl

theorem validate_with_human_attr {attrs : Attributes}
    (h : attrs.gender.isSome ∨ attrs.age.isSome ∨ attrs.ethnicity.isSome) :
    validate_face_attributes attrs = (true, "Valid human face detected") := by
  unfold validate_face_attributes Attributes.truthy
  rcases h with h | h | h <;> simp [h]

/-- C8: a detect result carrying none of gender/age/ethnicity makes
verification terminate with the invalid-face error before any search or
registration call; and when at least one of them is present, a face quality
below the 40.0 minimum does not cause rejection. -/
theorem C8_attribute_gate :
    (∀ env tok attrs, env.detect = .ok (some (tok, attrs)) →
      attrs.gender = none → attrs.age = none → attrs.ethnicity = none →
      (verify_face env).status = "error" ∧ (verify_faceT env).2.1 = Branch.invalid ∧
        (verify_faceT env).2.2 = [Op.detect]) ∧
    (∀ attrs : Attributes,
      (attrs.gender.isSome ∨ attrs.age.isSome ∨ attrs.ethnicity.isSome) →
      attrs.fqValue < min_face_quality →
      (validate_face_attributes attrs).1 = true) := by
  constructor
  · intro env tok attrs hd hg ha he
    obtain ⟨msg, hv⟩ : ∃ m, validate_face_attributes attrs = (false, m) :=
      ⟨(validate_face_attributes attrs).2, by
        rw [← validate_no_human_attrs hg ha he]⟩
    unfold verify_face verify_faceT
    rw [hd]
    simp only [hv]
    exact ⟨rfl, trivial, trivial⟩
  · intro attrs h _
    rw [validate_with_human_attr h]

/-- Attributes with only a facequality entry: a non-empty dict carrying none
of the three human attributes. -/
def attrsNoHuman : Attributes := { facequality := some 80 }

/-- A concrete environment whose detect result carries attrsNoHuman. -/
def envC8 : Env where
  detect := .ok (some ("tokA", attrsNoHuman))
  db_get_all := .ok []
  fpp_search := fun _ _ => .ok []
  db_find_available := .ok none
  fpp_get_detail := fun _ => .ok {}
  fpp_create := .ok "faceset_x"
  fpp_add := fun _ _ => .ok true
  db_save_token := fun _ _ => .ok true
  db_update_count := fun _ _ => .ok true

theorem C8_attribute_gate_witness :
    ((verify_face envC8).status = "error" ∧ (verify_faceT envC8).2.1 = Branch.invalid ∧
      (verify_faceT envC8).2.2 = [Op.detect]) ∧
    (validate_face_attributes { gender := some "Male", facequality := some 10 }).1 = true :=
  ⟨C8_attribute_gate.1 envC8 "tokA" attrsNoHuman rfl rfl rfl rfl,
   C8_attribute_gate.2 { gender := some "Male", facequality := some 10 }
     (Or.inl rfl) (by with_unfolding_all decide)⟩

/-- The C8 environment with a genuinely face-free detect result. -/
def envC8noface : Env := { envC8 with detect := .ok none }

theorem make_request_go_error_named {resp : Nat → RawResponse} {op : String} {e : Err} :
    ∀ attempt remaining waits attempts,
      (make_request_go resp op attempt remaining waits attempts).result = some (.error e) →
      ∃ a b, e.detail = a ++ op ++ b := by
  intro attempt remaining
  induction remaining generalizing attempt with
  | zero =>
    intro waits attempts h
    exact absurd h (by rw [make_request_go]; simp)
  | succ n ih =>
    intro waits attempts h
    rw [make_request_go] at h
    split at h
    · split at h
      · exact ih _ _ _ h
      · simp only [Option.some.injEq, Except.error.injEq] at h
        subst h
        exact ⟨"API request failed in ", ": " ++ _, by rw [String.append_assoc]⟩
    · split at h
      · exact ih _ _ _ h
      · simp only [Option.some.injEq, Except.error.injEq] at h
        subst h
        exact ⟨"Invalid response from Face++ API in ", "", by rw [String.append_empty]⟩
    · split at h
      · exact ih _ _ _ h
      · split at h
        · simp only [Option.some.injEq, Except.error.injEq] at h
          subst h
          exact ⟨"", " failed: " ++ _, by rw [String.empty_append, String.append_assoc]⟩
        · split at h
          · simp only [Option.some.injEq, Except.error.injEq] at h
            subst h
            exact ⟨"", " failed: " ++ _, by rw [String.empty_append, String.append_assoc]⟩
          · simp at h

theorem make_request_go_attempts_le (resp : Nat → RawResponse) (op : String) :
    ∀ attempt remaining waits attempts,
      (make_request_go resp op attempt remaining waits attempts).attempts
        ≤ attempts + remaining := by
  intro attempt remaining
  induction remaining generalizing attempt with
  | zero => intro waits attempts; rw [make_request_go]; simp
  | succ n ih =>
    intro waits attempts
    rw [make_request_go]
    split
    · split
      · exact (ih _ _ _).trans (by omega)
      · show attempts + 1 ≤ attempts + (n + 1); omega
    · split
      · exact (ih _ _ _).trans (by omega)
      · show attempts + 1 ≤ attempts + (n + 1); omega
    · split
      · exact (ih _ _ _).trans (by omega)
      · split
        · show attempts + 1 ≤ attempts + (n + 1); omega
        · split
          · show attempts + 1 ≤ attempts + (n + 1); omega
          · show attempts + 1 ≤ attempts + (n + 1); omega

/-- C3 (amended): every provider or transport error _make_request surfaces is
wrapped with the failing operation's name; but detect_face swallows every
error of its request into a no-face result, which verify_face then reports as
the "No face detected in image" outcome — detect errors are converted, not
surfaced (an additional exception next to the normalizer and the per-gallery
search skips). -/
theorem C3_error_wrapping_amended :
    (∀ resp op e, (make_request resp op).result = some (.error e) →
      ∃ a b, e.detail = a ++ op ++ b) ∧
    (∀ e, detect_face (.error e) = none) ∧
    (∀ env, env.detect = .ok none →
      verify_face env = error_response "No face detected in image") := by
  refine ⟨fun resp op e h => make_request_go_error_named 0 max_retries [] 0 h,
    fun e => rfl, ?_⟩
  intro env hd
  unfold verify_face verify_faceT
  rw [hd]

theorem C3_error_wrapping_amended_witness :
    (∃ a b, ("search_faces failed: INVALID_API_KEY" : String) = a ++ "search_faces" ++ b) ∧
    detect_face (.error ⟨503, "boom"⟩) = none ∧
    verify_face envC8noface = error_response "No face detected in image" :=
  ⟨C3_error_wrapping_amended.1
      (fun _ => .response 200 { error_message := some "INVALID_API_KEY" }) "search_faces"
      ⟨400, "search_faces failed: INVALID_API_KEY"⟩ (by with_unfolding_all decide),
   C3_error_wrapping_amended.2.1 ⟨503, "boom"⟩,
   C3_error_wrapping_amended.2.2 envC8noface rfl⟩

/-- The transport failure the detect request dies with in the C3 scenario. -/
def errDetectTransport : Err := ⟨503, "API request failed in detect_face: connection aborted"⟩

/-- Environment in which the detect provider request raised and detect_face
converted that into its (None, None) return. -/
def envC3 : Env where
  detect := .ok (detect_face (.error errDetectTransport))
  db_get_all := .ok []
  fpp_search := fun _ _ => .ok []
  db_find_available := .ok none
  fpp_get_detail := fun _ => .ok {}
  fpp_create := .ok "faceset_x"
  fpp_add := fun _ _ => .ok true
  db_save_token := fun _ _ => .ok true
  db_update_count := fun _ _ => .ok true

/-- C3 counterexample: a transport error during detect is not surfaced as an
error naming the operation — detect_face swallows it and verify_face reports
the ordinary "No face detected in image" outcome, whose message does not even
mention the detect operation. -/
theorem C3_counterexample :
    detect_face (.error errDetectTransport) = none ∧
    verify_face envC3 = error_response "No face detected in image" ∧
    strContains (verify_face envC3).message "detect_face" = false := by
  with_unfolding_all decide

/-- C4: the retry policy of _make_request: at most 3 attempts happen in total;
a concurrency/rate-limit report on attempt i waits retry_delay * (i+1) (linear
backoff) and retries; any other provider-reported error is terminal at the
same attempt with no wait, carrying the provider's status code (non-200 case)
and message. -/
theorem C4_retry_policy :
    (∀ resp op, (make_request resp op).attempts ≤ max_retries) ∧
    (∀ resp op s₀ body₀ body₁, resp 0 = .response s₀ body₀ →
      isConcurrencyError body₀ = true →
      resp 1 = .response 200 body₁ → body₁.error_message = none →
      make_request resp op = ⟨some (.ok body₁), [retry_delay * 1], 2⟩) ∧
    (∀ resp op s₀ s₁ body₀ body₁ body₂, resp 0 = .response s₀ body₀ →
      isConcurrencyError body₀ = true →
      resp 1 = .response s₁ body₁ → isConcurrencyError body₁ = true →
      resp 2 = .response 200 body₂ → body₂.error_message = none →
      make_request resp op = ⟨some (.ok body₂), [retry_delay * 1, retry_delay * 2], 3⟩) ∧
    (∀ resp op status body em, resp 0 = .response status body →
      body.error_message = some em → isConcurrencyError body = false → status ≠ 200 →
      make_request resp op = ⟨some (.error ⟨status, op ++ " failed: " ++ body.dumps⟩), [], 1⟩) ∧
    (∀ resp op body em, resp 0 = .response 200 body →
      body.error_message = some em → isConcurrencyError body = false →
      make_request resp op = ⟨some (.error ⟨400, op ++ " failed: " ++ em⟩), [], 1⟩) := by
  refine ⟨fun resp op => make_request_go_attempts_le resp op 0 max_retries [] 0, ?_, ?_, ?_, ?_⟩
  · intro resp op s₀ body₀ body₁ h0 hc0 h1 he1
    have hc1 : isConcurrencyError body₁ = false := by
      unfold isConcurrencyError; rw [he1]
    unfold make_request
    simp [make_request_go, max_retries, h0, h1, hc0, hc1, he1]
    try norm_num
  · intro resp op s₀ s₁ body₀ body₁ body₂ h0 hc0 h1 hc1 h2 he2
    have hc2 : isConcurrencyError body₂ = false := by
      unfold isConcurrencyError; rw [he2]
    unfold make_request
    simp [make_request_go, max_retries, h0, h1, h2, hc0, hc1, hc2, he2]
    try norm_num
  · intro resp op status body em h0 hem hc hs
    unfold make_request
    simp [make_request_go, max_retries, h0, hem, hc, hs]
    try norm_num
  · intro resp op body em h0 hem hc
    unfold make_request
    simp [make_request_go, max_retries, h0, hem, hc]
    try norm_num

/-- The concurrency-then-success and terminal-rejection provider behaviours
used to witness the retry policy. -/
def respC4a : Nat → RawResponse := fun n =>
  if n = 0 then .response 403 { error_message := some "CONCURRENCY_LIMIT_EXCEEDED" }
  else .response 200 { faces := some [⟨"tokA", {}⟩] }

def respC4d : Nat → RawResponse := fun _ =>
  .response 401 { error_message := some "AUTHENTICATION_ERROR" }

theorem C4_retry_policy_witness :
    (make_request respC4a "search_faces").attempts ≤ max_retries ∧
    make_request respC4a "search_faces"
      = ⟨some (.ok { faces := some [⟨"tokA", {}⟩] }), [retry_delay * 1], 2⟩ ∧
    make_request respC4d "search_faces"
      = ⟨some (.error ⟨401, "search_faces failed: "
          ++ Json.dumps { error_message := some "AUTHENTICATION_ERROR" }⟩), [], 1⟩ :=
  ⟨C4_retry_policy.1 respC4a "search_faces",
   C4_retry_policy.2.1 respC4a "search_faces" 403
     { error_message := some "CONCURRENCY_LIMIT_EXCEEDED" } { faces := some [⟨"tokA", {}⟩] }
     rfl (by with_unfolding_all decide) rfl rfl,
   C4_retry_policy.2.2.2.1 respC4d "search_faces" 401
     { error_message := some "AUTHENTICATION_ERROR" } "AUTHENTICATION_ERROR"
     rfl rfl (by with_unfolding_all decide) (by decide)⟩

theorem findFirstFit_spec {enc : Enc} :
    ∀ {cs : List (Nat × Nat × Nat)} {hit : Nat × Nat × Nat} {n : Nat},
      findFirstFit enc cs = some (hit, n) →
      hit ∈ cs ∧ n ≤ cs.length ∧ enc hit.1 hit.2.1 hit.2.2 ≤ byte_budget := by
  intro cs
  induction cs with
  | nil => intro hit n h; exact absurd h (by simp [findFirstFit])
  | cons c cs ih =>
    intro hit n h
    rw [findFirstFit] at h
    split at h
    · obtain ⟨h1, h2⟩ : c = hit ∧ 1 = n := by
        simpa using h
      subst h1; subst h2
      exact ⟨List.mem_cons_self .., by simp, by assumption⟩
    · split at h
      · next hrec =>
        obtain ⟨h1, h2⟩ : _ ∧ _ = n := by simpa using h
        subst h1; subst h2
        obtain ⟨hm, hn, hs⟩ := ih hrec
        exact ⟨List.mem_cons_of_mem _ hm, by simp; omega, hs⟩
      · exact absurd h (by simp)

theorem shrinkCandidates_length_le (w h : Nat) : (shrinkCandidates w h).length ≤ 5 := by
  unfold shrinkCandidates
  have hsub := List.takeWhile_sublist
    (l := shrinkScales.map fun s => (scaleDim w s, scaleDim h s))
    (p := fun d => decide (min_dimension ≤ min d.1 d.2))
  have := hsub.length_le
  simpa [shrinkScales] using this

/-- C6: for every decodable image and every encoder behaviour, the compression
ladder performs a bounded number of encode steps (qualities and scales are
strictly decreasing and bounded below) and the returned bytes fit the 2MB
budget unless they came from the last-resort fixed-quality step. -/
theorem C6_compression_ladder_bounded (enc : Enc) (w₀ h₀ : Nat) :
    (resize_image_if_needed enc w₀ h₀).steps ≤ 20 ∧
    ((resize_image_if_needed enc w₀ h₀).size ≤ byte_budget ∨
      (resize_image_if_needed enc w₀ h₀).lastResort = true) ∧
    List.Chain' (· > ·) qualitySteps ∧ List.Chain' (· > ·) shrinkScales ∧
    (∀ q ∈ qualitySteps, 20 < q) ∧ (∀ s ∈ shrinkScales, 3/10 < s) := by
  have h5 := shrinkCandidates_length_le (normalizeDims w₀ h₀).1 (normalizeDims w₀ h₀).2
  have h14 : qualitySteps.length = 14 := rfl
  refine ⟨?_, ?_, ?_, ?_, ?_, ?_⟩
  · unfold resize_image_if_needed
    split
    · next hit n hq =>
      obtain ⟨-, hle, -⟩ := findFirstFit_spec hq
      rw [List.length_map, h14] at hle
      show n ≤ 20
      omega
    · split
      · next hit n hq2 =>
        obtain ⟨-, hle, -⟩ := findFirstFit_spec hq2
        rw [List.length_map] at hle
        show qualitySteps.length + n ≤ 20
        omega
      · show qualitySteps.length
            + (shrinkCandidates (normalizeDims w₀ h₀).1 (normalizeDims w₀ h₀).2).length + 1 ≤ 20
        omega
  · unfold resize_image_if_needed
    split
    · next hit n hq =>
      obtain ⟨-, -, hs⟩ := findFirstFit_spec hq
      exact Or.inl hs
    · split
      · next hit n hq2 =>
        obtain ⟨-, -, hs⟩ := findFirstFit_spec hq2
        exact Or.inl hs
      · exact Or.inr rfl
  · unfold qualitySteps
    simp only [List.chain'_cons, List.chain'_singleton]
    norm_num
  · unfold shrinkScales
    simp only [List.chain'_cons, List.chain'_singleton]
    norm_num
  · decide
  · intro s hs
    unfold shrinkScales at hs
    simp only [List.mem_cons, List.not_mem_nil, or_false] at hs
    rcases hs with rfl | rfl | rfl | rfl | rfl <;> norm_num

theorem make_request_go_ok_no_error_message {resp : Nat → RawResponse} {op : String}
    {body : Json} :
    ∀ attempt remaining waits attempts,
      (make_request_go resp op attempt remaining waits attempts).result = some (.ok body) →
      body.error_message = none := by
  intro attempt remaining
  induction remaining generalizing attempt with
  | zero =>
    intro waits attempts h
    exact absurd h (by rw [make_request_go]; simp)
  | succ n ih =>
    intro waits attempts h
    rw [make_request_go] at h
    split at h
    · split at h
      · exact ih _ _ _ h
      · exact absurd h (by simp)
    · split at h
      · exact ih _ _ _ h
      · exact absurd h (by simp)
    · split at h
      · exact ih _ _ _ h
      · split at h
        · exact absurd h (by simp)
        · split at h
          · exact absurd h (by simp)
          · next hem =>
            simp only [Option.some.injEq, Except.ok.injEq] at h
            subst h
            exact hem

theorem get_faceset_detail_ok_shape {req : Exc Json} {d : Json}
    (h : get_faceset_detail req = .ok d) :
    d.truthy = true ∧ d.face_count.isSome = true := by
  unfold get_faceset_detail at h
  split at h
  · exact absurd h (by simp)
  · split at h
    · next hcond =>
      cases h
      exact ⟨(Bool.and_eq_true ..).mp hcond |>.1, (Bool.and_eq_true ..).mp hcond |>.2⟩
    · exact absurd h (by simp)

/-- The provider rejects the stale gallery id: HTTP 400, INVALID_OUTER_ID. -/
def respInvalidOuter : Nat → RawResponse := fun _ =>
  .response 400 { error_message := some "INVALID_OUTER_ID" }

/-- The outcome of the gallery-detail provider request on the stale gallery. -/
def reqStaleDetail : Exc Json :=
  (make_request respInvalidOuter "get_faceset_detail").result.getD (.error ⟨0, ""⟩)

/-- Environment of the C9 scenario: the db offers candidate faceset fs1, the
provider no longer recognizes it, everything else would succeed. -/
def envStale : Env where
  detect := .ok (some ("tokA", { gender := some "Male" }))
  db_get_all := .ok []
  fpp_search := fun _ _ => .ok []
  db_find_available := .ok (some ("fs1", 5))
  fpp_get_detail := fun _ => get_faceset_detail reqStaleDetail
  fpp_create := .ok "faceset_fresh"
  fpp_add := fun _ _ => .ok true
  db_save_token := fun _ _ => .ok true
  db_update_count := fun _ _ => .ok true

set_option maxRecDepth 10000 in
unseal List.merge List.mergeSort in
/-- C9: when the db offers a candidate gallery that the provider no longer
recognizes, registration does NOT discard the stale candidate and create a
fresh gallery: get_faceset_detail raises (it never returns the falsy or
error-marked dict the stale-candidate check in save_face_data tests for), the
exception is wrapped as HTTP 500, and the verification call ends in the
caught-error branch instead of registering. -/
theorem C9_stale_faceset_bug :
    (make_request respInvalidOuter "get_faceset_detail").result
      = some (.error ⟨400,
          "get_faceset_detail failed: \x7b\"error_message\": \"INVALID_OUTER_ID\"\x7d"⟩) ∧
    save_face_data envStale "tokA"
      = .error ⟨500, "Error saving face data: 400: get_faceset_detail failed: "
          ++ "\x7b\"error_message\": \"INVALID_OUTER_ID\"\x7d"⟩ ∧
    (verify_face envStale).status = "error" ∧
    (verify_faceT envStale).2.1 = Branch.caught := by
  with_unfolding_all decide

/-- C5 counterexample: the decodable 10000x100 image has longer dimension
above 2048, yet resize_image_if_needed (with an encoder that always fits)
returns a 4915x48 image: the minimum-dimension upscale after the 2048
downscale pushes the longer side back above the maximum. -/
theorem C5_counterexample :
    2048 < max 10000 100 ∧
    (resize_image_if_needed (fun _ _ _ => 0) 10000 100).w = 4915 ∧
    (resize_image_if_needed (fun _ _ _ => 0) 10000 100).h = 48 ∧
    ¬ (max (resize_image_if_needed (fun _ _ _ => 0) 10000 100).w
        (resize_image_if_needed (fun _ _ _ => 0) 10000 100).h ≤ max_dimension) := by
  with_unfolding_all decide

/-! ## Dimension bounds for the resize pipeline -/

theorem round_aspect_mem (q : ℚ) (key : ℤ → ℚ) :
    round_aspect q key = 1 ∨ round_aspect q key = ⌊q⌋ ∨ round_aspect q key = ⌈q⌉ := by
  unfold round_aspect
  rcases max_choice (if key ⌊q⌋ ≤ key ⌈q⌉ then ⌊q⌋ else ⌈q⌉) 1 with h | h <;> rw [h]
  · split
    · exact Or.inr (Or.inl rfl)
    · exact Or.inr (Or.inr rfl)
  · exact Or.inl rfl

theorem round_aspect_one_le (q : ℚ) (key : ℤ → ℚ) : 1 ≤ round_aspect q key :=
  le_max_right _ 1

theorem round_aspect_le {q : ℚ} (key : ℤ → ℚ) {B : ℤ} (hB : 1 ≤ B) (hq : q ≤ (B : ℚ)) :
    round_aspect q key ≤ B := by
  rcases round_aspect_mem q key with h | h | h <;> rw [h]
  · exact hB
  · exact (Int.floor_le_floor hq).trans_eq (Int.floor_intCast B)
  · exact Int.ceil_le.mpr hq

theorem round_aspect_near {q : ℚ} {key : ℤ → ℚ} (h2 : 2 ≤ round_aspect q key) :
    |(round_aspect q key : ℚ) - q| ≤ 1 := by
  rcases round_aspect_mem q key with h | h | h
  · rw [h] at h2; exact absurd h2 (by norm_num)
  · rw [h, abs_le]
    constructor
    · linarith [Int.sub_one_lt_floor q]
    · linarith [Int.floor_le q]
  · rw [h, abs_le]
    constructor
    · linarith [Int.le_ceil q]
    · linarith [Int.ceil_lt_add_one q]

theorem upscaleDims_id {w h : Nat} (h48 : min_dimension ≤ min w h) :
    upscaleDims w h = (w, h) := by
  unfold upscaleDims
  rw [if_neg (by omega)]

theorem scaleDim_le {d : Nat} {s : ℚ} (_hs0 : 0 ≤ s) (hs1 : s ≤ 1) : scaleDim d s ≤ d := by
  unfold scaleDim
  have hds : (d : ℚ) * s ≤ (d : ℚ) := by nlinarith [(Nat.cast_nonneg d : (0 : ℚ) ≤ (d : ℚ))]
  have h1 : ⌊(d : ℚ) * s⌋ ≤ (d : ℤ) := by
    exact_mod_cast (Int.floor_le_floor hds).trans_eq (by exact_mod_cast Int.floor_intCast (d : ℤ))
  exact Int.toNat_le.mpr h1

theorem scaleDim_bounds {d : Nat} {s : ℚ} (hs0 : 0 ≤ s) :
    ((scaleDim d s : ℕ) : ℚ) ≤ (d : ℚ) * s ∧ (d : ℚ) * s - 1 < ((scaleDim d s : ℕ) : ℚ) := by
  unfold scaleDim
  have hnn : 0 ≤ ⌊(d : ℚ) * s⌋ := Int.floor_nonneg.mpr (by positivity)
  have hcast : ((⌊(d : ℚ) * s⌋.toNat : ℕ) : ℚ) = ((⌊(d : ℚ) * s⌋ : ℤ) : ℚ) := by
    rw [← Int.cast_natCast, Int.toNat_of_nonneg hnn]
  rw [hcast]
  exact ⟨Int.floor_le _, Int.sub_one_lt_floor _⟩

theorem scale_pair_bound (W H : Nat) {s : ℚ} (hs0 : 0 ≤ s) :
    |((scaleDim W s : ℕ) : ℚ) * H - (W : ℚ) * ((scaleDim H s : ℕ) : ℚ)|
      ≤ max (W : ℚ) (H : ℚ) := by
  obtain ⟨ha1, ha2⟩ := scaleDim_bounds (d := W) hs0
  obtain ⟨hb1, hb2⟩ := scaleDim_bounds (d := H) hs0
  have hW0 : (0 : ℚ) ≤ (W : ℚ) := Nat.cast_nonneg W
  have hH0 : (0 : ℚ) ≤ (H : ℚ) := Nat.cast_nonneg H
  rw [abs_le]
  constructor
  · have haH : ((W : ℚ) * s - 1) * H ≤ ((scaleDim W s : ℕ) : ℚ) * H :=
      mul_le_mul_of_nonneg_right (le_of_lt ha2) hH0
    have hWb : (W : ℚ) * ((scaleDim H s : ℕ) : ℚ) ≤ (W : ℚ) * ((H : ℚ) * s) :=
      mul_le_mul_of_nonneg_left hb1 hW0
    have hkey : ((W : ℚ) * s - 1) * H = (W : ℚ) * ((H : ℚ) * s) - H := by ring
    rw [hkey] at haH
    have : -(H : ℚ) ≤ ((scaleDim W s : ℕ) : ℚ) * H - (W : ℚ) * ((scaleDim H s : ℕ) : ℚ) := by
      linarith
    exact le_trans (neg_le_neg (le_max_right (W : ℚ) (H : ℚ))) this
  · have haH : ((scaleDim W s : ℕ) : ℚ) * H ≤ ((W : ℚ) * s) * H :=
      mul_le_mul_of_nonneg_right ha1 hH0
    have hWb : (W : ℚ) * ((H : ℚ) * s - 1) ≤ (W : ℚ) * ((scaleDim H s : ℕ) : ℚ) :=
      mul_le_mul_of_nonneg_left (le_of_lt hb2) hW0
    have hkey : (W : ℚ) * ((H : ℚ) * s - 1) = ((W : ℚ) * s) * H - W := by ring
    rw [hkey] at hWb
    have : ((scaleDim W s : ℕ) : ℚ) * H - (W : ℚ) * ((scaleDim H s : ℕ) : ℚ) ≤ (W : ℚ) := by
      linarith
    exact this.trans (le_max_left _ _)

theorem compose_case1 {D w h W a b : ℚ} (hD : 0 < D) (hh : 0 ≤ h) (hb : 0 ≤ b) (hbB : b ≤ D)
    (h1 : |W * h - D * w| ≤ h) (h2 : |a * D - W * b| ≤ D) :
    |a * h - w * b| ≤ 2 * h := by
  have key : D * (a * h - w * b) = h * (a * D - W * b) + b * (W * h - D * w) := by ring
  have habs : D * |a * h - w * b| ≤ h * D + b * h := by
    calc D * |a * h - w * b| = |D| * |a * h - w * b| := by rw [abs_of_pos hD]
    _ = |D * (a * h - w * b)| := (abs_mul _ _).symm
    _ = |h * (a * D - W * b) + b * (W * h - D * w)| := by rw [key]
    _ ≤ |h * (a * D - W * b)| + |b * (W * h - D * w)| := abs_add _ _
    _ = h * |a * D - W * b| + b * |W * h - D * w| := by
        rw [abs_mul, abs_mul, abs_of_nonneg hh, abs_of_nonneg hb]
    _ ≤ h * D + b * h := add_le_add
        (mul_le_mul_of_nonneg_left h2 hh) (mul_le_mul_of_nonneg_left h1 hb)
  have hbh : b * h ≤ D * h := mul_le_mul_of_nonneg_right hbB hh
  nlinarith [abs_nonneg (a * h - w * b)]

theorem compose_case2 {D w h H a b : ℚ} (hD : 0 < D) (hw : 0 ≤ w) (ha0 : 0 ≤ a) (haB : a ≤ D)
    (h1 : |D * h - H * w| ≤ w) (h2 : |a * H - D * b| ≤ D) :
    |a * h - w * b| ≤ 2 * w := by
  have key : D * (a * h - w * b) = a * (D * h - H * w) + w * (a * H - D * b) := by ring
  have habs : D * |a * h - w * b| ≤ a * w + w * D := by
    calc D * |a * h - w * b| = |D| * |a * h - w * b| := by rw [abs_of_pos hD]
    _ = |D * (a * h - w * b)| := (abs_mul _ _).symm
    _ = |a * (D * h - H * w) + w * (a * H - D * b)| := by rw [key]
    _ ≤ |a * (D * h - H * w)| + |w * (a * H - D * b)| := abs_add _ _
    _ = a * |D * h - H * w| + w * |a * H - D * b| := by
        rw [abs_mul, abs_mul, abs_of_nonneg ha0, abs_of_nonneg hw]
    _ ≤ a * w + w * D := add_le_add
        (mul_le_mul_of_nonneg_left h1 ha0) (mul_le_mul_of_nonneg_left h2 hw)
  have haw : a * w ≤ D * w := mul_le_mul_of_nonneg_right haB hw
  nlinarith [abs_nonneg (a * h - w * b)]

theorem thumbnailDims_spec {w h : Nat} (hw : 0 < w) (hh : 0 < h)
    (hbig : ¬(w ≤ max_dimension ∧ h ≤ max_dimension))
    (hmin : min_dimension ≤ min (thumbnailDims w h).1 (thumbnailDims w h).2) :
    (thumbnailDims w h).1 ≤ max_dimension ∧ (thumbnailDims w h).2 ≤ max_dimension ∧
      ((thumbnailDims w h).2 = max_dimension ∧
          |((thumbnailDims w h).1 : ℚ) * h - (max_dimension : ℚ) * w| ≤ (h : ℚ) ∨
        (thumbnailDims w h).1 = max_dimension ∧
          |(max_dimension : ℚ) * h - ((thumbnailDims w h).2 : ℚ) * w| ≤ (w : ℚ)) := by
  have hh0 : ((h : ℚ)) ≠ 0 := by positivity
  have hw0 : ((w : ℚ)) ≠ 0 := by positivity
  have hdiv0 : (0 : ℚ) ≤ (w : ℚ) / (h : ℚ) := by positivity
  by_cases hc : (1 : ℚ) ≥ (w : ℚ) / (h : ℚ)
  · unfold thumbnailDims at hmin ⊢
    rw [if_neg hbig, if_pos hc] at hmin ⊢
    set q : ℚ := (max_dimension : ℚ) * ((w : ℚ) / (h : ℚ)) with hqdef
    set key : ℤ → ℚ := fun n => |(w : ℚ) / (h : ℚ) - (n : ℚ) / (max_dimension : ℚ)| with hkey
    have hx48 : min_dimension ≤ (round_aspect q key).toNat := (Nat.le_min.mp hmin).1
    have hx0 : (0 : ℤ) ≤ round_aspect q key := le_trans (by norm_num) (round_aspect_one_le q key)
    have hxZ48 : (48 : ℤ) ≤ round_aspect q key := by
      unfold min_dimension at hx48; omega
    have hqle : q ≤ ((2048 : ℤ) : ℚ) := by
      rw [hqdef]; unfold max_dimension; push_cast
      nlinarith
    have hxle : round_aspect q key ≤ 2048 := round_aspect_le key (by norm_num) hqle
    have hWle : (round_aspect q key).toNat ≤ max_dimension := by
      unfold max_dimension; omega
    refine ⟨hWle, le_refl _, Or.inl ⟨rfl, ?_⟩⟩
    have hnear := round_aspect_near (show (2 : ℤ) ≤ round_aspect q key by omega)
    have hcast : (((round_aspect q key).toNat : ℕ) : ℚ) = ((round_aspect q key : ℤ) : ℚ) := by
      rw [← Int.cast_natCast, Int.toNat_of_nonneg hx0]
    have hqh : q * h = (max_dimension : ℚ) * w := by
      rw [hqdef]; field_simp
    calc |(((round_aspect q key).toNat : ℕ) : ℚ) * h - (max_dimension : ℚ) * w|
        = |((round_aspect q key : ℤ) : ℚ) * h - q * h| := by rw [hcast, hqh]
    _ = |(((round_aspect q key : ℤ) : ℚ) - q) * h| := by ring_nf
    _ = |((round_aspect q key : ℤ) : ℚ) - q| * |(h : ℚ)| := abs_mul _ _
    _ ≤ 1 * |(h : ℚ)| := mul_le_mul_of_nonneg_right hnear (abs_nonneg _)
    _ = (h : ℚ) := by rw [one_mul, abs_of_nonneg (Nat.cast_nonneg h)]
  · unfold thumbnailDims at hmin ⊢
    rw [if_neg hbig, if_neg hc] at hmin ⊢
    set q : ℚ := (max_dimension : ℚ) / ((w : ℚ) / (h : ℚ)) with hqdef
    set key : ℤ → ℚ := fun n =>
      if n = 0 then 0 else |(w : ℚ) / (h : ℚ) - (max_dimension : ℚ) / (n : ℚ)| with hkey
    have hy48 : min_dimension ≤ (round_aspect q key).toNat := (Nat.le_min.mp hmin).2
    have hy0 : (0 : ℤ) ≤ round_aspect q key := le_trans (by norm_num) (round_aspect_one_le q key)
    have hyZ48 : (48 : ℤ) ≤ round_aspect q key := by
      unfold min_dimension at hy48; omega
    have hratio1 : (1 : ℚ) < (w : ℚ) / (h : ℚ) := lt_of_not_ge hc
    have hqle : q ≤ ((2048 : ℤ) : ℚ) := by
      rw [hqdef]; unfold max_dimension; push_cast
      exact div_le_self (by norm_num) (le_of_lt hratio1)
    have hyle : round_aspect q key ≤ 2048 := round_aspect_le key (by norm_num) hqle
    have hHle : (round_aspect q key).toNat ≤ max_dimension := by
      unfold max_dimension; omega
    refine ⟨le_refl _, hHle, Or.inr ⟨rfl, ?_⟩⟩
    have hnear := round_aspect_near (show (2 : ℤ) ≤ round_aspect q key by omega)
    have hcast : (((round_aspect q key).toNat : ℕ) : ℚ) = ((round_aspect q key : ℤ) : ℚ) := by
      rw [← Int.cast_natCast, Int.toNat_of_nonneg hy0]
    have hqw : q * w = (max_dimension : ℚ) * h := by
      rw [hqdef]
      rw [div_div_eq_mul_div, div_mul_eq_mul_div, mul_comm ((max_dimension : ℚ)) (h : ℚ),
        mul_div_assoc]
      rw [div_self hw0, mul_one, mul_comm]
    calc |(max_dimension : ℚ) * h - (((round_aspect q key).toNat : ℕ) : ℚ) * w|
        = |q * w - ((round_aspect q key : ℤ) : ℚ) * w| := by rw [hcast, hqw]
    _ = |(q - ((round_aspect q key : ℤ) : ℚ)) * w| := by ring_nf
    _ = |q - ((round_aspect q key : ℤ) : ℚ)| * |(w : ℚ)| := abs_mul _ _
    _ ≤ 1 * |(w : ℚ)| := by
        rw [abs_sub_comm]
        exact mul_le_mul_of_nonneg_right hnear (abs_nonneg _)
    _ = (w : ℚ) := by rw [one_mul, abs_of_nonneg (Nat.cast_nonneg w)]

theorem shrinkScales_mem_bounds {s : ℚ} (hs : s ∈ shrinkScales) : 0 ≤ s ∧ s ≤ 1 := by
  unfold shrinkScales at hs
  simp only [List.mem_cons, List.not_mem_nil, or_false] at hs
  rcases hs with rfl | rfl | rfl | rfl | rfl <;> norm_num

theorem resize_dims_cases (enc : Enc) (w h : Nat) :
    ((resize_image_if_needed enc w h).w = (normalizeDims w h).1 ∧
      (resize_image_if_needed enc w h).h = (normalizeDims w h).2) ∨
    ∃ s ∈ shrinkScales,
      (resize_image_if_needed enc w h).w = scaleDim (normalizeDims w h).1 s ∧
      (resize_image_if_needed enc w h).h = scaleDim (normalizeDims w h).2 s := by
  unfold resize_image_if_needed
  split
  · next hit n hq =>
    obtain ⟨hm, -, -⟩ := findFirstFit_spec hq
    obtain ⟨q, -, rfl⟩ := List.mem_map.mp hm
    exact Or.inl ⟨rfl, rfl⟩
  · split
    · next hit n hq2 =>
      obtain ⟨hm, -, -⟩ := findFirstFit_spec hq2
      obtain ⟨d, hd, rfl⟩ := List.mem_map.mp hm
      have hd' : d ∈ shrinkScales.map fun s =>
          (scaleDim (normalizeDims w h).1 s, scaleDim (normalizeDims w h).2 s) :=
        (List.takeWhile_sublist _).subset hd
      obtain ⟨s, hs, hds⟩ := List.mem_map.mp hd'
      refine Or.inr ⟨s, hs, ?_, ?_⟩ <;> rw [← hds]
    · exact Or.inl ⟨rfl, rfl⟩

/-- C5 (amended): when the longer dimension exceeds 2048px and the downscaled
shorter side stays at or above the 48px minimum (so the upscale step does not
fire), the returned image's longer dimension is at most 2048px and the aspect
ratio is preserved up to integer rounding: |outW*h - w*outH| <= 2*max(w,h). -/
theorem C5_resize_dims_amended (enc : Enc) (w h : Nat) (hw : 0 < w) (hh : 0 < h)
    (hbig : max_dimension < max w h)
    (hmin : min_dimension ≤ min (thumbnailDims w h).1 (thumbnailDims w h).2) :
    max (resize_image_if_needed enc w h).w (resize_image_if_needed enc w h).h
      ≤ max_dimension ∧
    |((resize_image_if_needed enc w h).w : ℚ) * h - (w : ℚ) * (resize_image_if_needed enc w h).h|
      ≤ 2 * max (w : ℚ) (h : ℚ) := by
  have hbig' : ¬(w ≤ max_dimension ∧ h ≤ max_dimension) := by omega
  obtain ⟨hT1, hT2, hcase⟩ := thumbnailDims_spec hw hh hbig' hmin
  have hnorm : normalizeDims w h = thumbnailDims w h := by
    unfold normalizeDims
    rw [upscaleDims_id hmin]
  have hmd0 : (0 : ℚ) < (max_dimension : ℚ) := by unfold max_dimension; norm_num
  have hwmax : (w : ℚ) ≤ max (w : ℚ) (h : ℚ) := le_max_left _ _
  have hhmax : (h : ℚ) ≤ max (w : ℚ) (h : ℚ) := le_max_right _ _
  rcases resize_dims_cases enc w h with ⟨e1, e2⟩ | ⟨s, hsmem, e1, e2⟩ <;>
    rw [hnorm] at e1 e2
  · constructor
    · rw [e1, e2]; exact max_le hT1 hT2
    · rw [e1, e2]
      rcases hcase with ⟨hTd, hasp⟩ | ⟨hTd, hasp⟩
      · rw [hTd]
        calc |((thumbnailDims w h).1 : ℚ) * h - (w : ℚ) * (max_dimension : ℕ)|
            = |((thumbnailDims w h).1 : ℚ) * h - (max_dimension : ℚ) * w| := by ring_nf
        _ ≤ (h : ℚ) := hasp
        _ ≤ 2 * max (w : ℚ) (h : ℚ) := by linarith
      · rw [hTd]
        calc |((max_dimension : ℕ) : ℚ) * h - (w : ℚ) * (thumbnailDims w h).2|
            = |(max_dimension : ℚ) * h - ((thumbnailDims w h).2 : ℚ) * w| := by ring_nf
        _ ≤ (w : ℚ) := hasp
        _ ≤ 2 * max (w : ℚ) (h : ℚ) := by linarith
  · obtain ⟨hs0, hs1⟩ := shrinkScales_mem_bounds hsmem
    constructor
    · rw [e1, e2]
      exact max_le ((scaleDim_le hs0 hs1).trans hT1) ((scaleDim_le hs0 hs1).trans hT2)
    · rw [e1, e2]
      rcases hcase with ⟨hTd, hasp⟩ | ⟨hTd, hasp⟩
      · -- w ≤ h: thumbnail landed at (W, 2048); shrink both coordinates
        have hpair := scale_pair_bound (thumbnailDims w h).1 (thumbnailDims w h).2 hs0
        rw [hTd] at hpair
        have hpair' : |((scaleDim (thumbnailDims w h).1 s : ℕ) : ℚ) * (max_dimension : ℚ)
            - ((thumbnailDims w h).1 : ℚ) * ((scaleDim max_dimension s : ℕ) : ℚ)|
            ≤ (max_dimension : ℚ) := by
          refine le_trans hpair ?_
          exact max_le (by exact_mod_cast Nat.cast_le.mpr hT1) (le_refl _)
        have hble : ((scaleDim max_dimension s : ℕ) : ℚ) ≤ (max_dimension : ℚ) := by
          exact_mod_cast Nat.cast_le.mpr (scaleDim_le hs0 hs1)
        have := compose_case1 (D := (max_dimension : ℚ)) (w := (w : ℚ)) (h := (h : ℚ))
          (W := ((thumbnailDims w h).1 : ℚ))
          (a := ((scaleDim (thumbnailDims w h).1 s : ℕ) : ℚ))
          (b := ((scaleDim max_dimension s : ℕ) : ℚ))
          hmd0 (Nat.cast_nonneg h) (Nat.cast_nonneg _) hble hasp hpair'
        rw [hTd]
        calc |((scaleDim (thumbnailDims w h).1 s : ℕ) : ℚ) * h
            - (w : ℚ) * (scaleDim max_dimension s : ℕ)|
            ≤ 2 * (h : ℚ) := this
        _ ≤ 2 * max (w : ℚ) (h : ℚ) := by linarith
      · -- h < w: thumbnail landed at (2048, H); shrink both coordinates
        have hpair := scale_pair_bound (thumbnailDims w h).1 (thumbnailDims w h).2 hs0
        rw [hTd] at hpair
        have hpair' : |((scaleDim max_dimension s : ℕ) : ℚ) * ((thumbnailDims w h).2 : ℚ)
            - (max_dimension : ℚ) * ((scaleDim (thumbnailDims w h).2 s : ℕ) : ℚ)|
            ≤ (max_dimension : ℚ) := by
          refine le_trans hpair ?_
          exact max_le (le_refl _) (by exact_mod_cast Nat.cast_le.mpr hT2)
        have hale : ((scaleDim max_dimension s : ℕ) : ℚ) ≤ (max_dimension : ℚ) := by
          exact_mod_cast Nat.cast_le.mpr (scaleDim_le hs0 hs1)
        have := compose_case2 (D := (max_dimension : ℚ)) (w := (w : ℚ)) (h := (h : ℚ))
          (H := ((thumbnailDims w h).2 : ℚ))
          (a := ((scaleDim max_dimension s : ℕ) : ℚ))
          (b := ((scaleDim (thumbnailDims w h).2 s : ℕ) : ℚ))
          hmd0 (Nat.cast_nonneg w) (Nat.cast_nonneg _) hale hasp hpair'
        rw [hTd]
        calc |((scaleDim max_dimension s : ℕ) : ℚ) * h
            - (w : ℚ) * (scaleDim (thumbnailDims w h).2 s : ℕ)|
            ≤ 2 * (w : ℚ) := this
        _ ≤ 2 * max (w : ℚ) (h : ℚ) := by linarith

theorem C5_resize_dims_amended_witness :
    max (resize_image_if_needed (fun _ _ _ => 0) 4096 2048).w
        (resize_image_if_needed (fun _ _ _ => 0) 4096 2048).h ≤ max_dimension ∧
    |((resize_image_if_needed (fun _ _ _ => 0) 4096 2048).w : ℚ) * ((2048 : ℕ) : ℚ)
        - ((4096 : ℕ) : ℚ) * (resize_image_if_needed (fun _ _ _ => 0) 4096 2048).h|
      ≤ 2 * max ((4096 : ℕ) : ℚ) ((2048 : ℕ) : ℚ) :=
  C5_resize_dims_amended (fun _ _ _ => 0) 4096 2048 (by norm_num) (by norm_num)
    (by with_unfolding_all decide) (by with_unfolding_all decide)

end HireGuard
